import Mathlib

/-!
Verification development for the MIREA Report Generator pipeline
(directory discovery, safe file reading, document assembly, template
rendering, publish / temp-file lifecycle, logging, config store).

Each Python component is shallowly embedded as an executable Lean
definition; filesystem and library effects are made explicit as
parameters (an abstract filesystem tree for the directory walk, an
abstract read oracle for file contents, Boolean success flags for the
docx-library calls).
-/

namespace MireaReport

/-! ## File discovery (src/utils/file_utils.py, FileManager) -/

/-- The fixed extension allow-list `FileManager.CODE_EXTENSIONS`. -/
def CODE_EXTENSIONS : List String :=
  [".py", ".cpp", ".c", ".h", ".hpp", ".java", ".js", ".kt", ".go", ".rs"]

/-- Python `str.endswith`: a case-sensitive suffix test on the character
sequence of the string. -/
def endswith (s suffix : String) : Bool :=
  suffix.data.isSuffixOf s.data

/-- The eligibility test of line 35 of file_utils.py:
`any(file.endswith(ext) for ext in cls.CODE_EXTENSIONS)` — a
case-sensitive suffix match of the file name against the allow-list. -/
def hasCodeExt (file : String) : Bool :=
  CODE_EXTENSIONS.any fun ext => endswith file ext

/-- An abstract directory tree: a directory has a name, a list of plain
file names, a flag saying whether `os.scandir` succeeds on it
(`readable`), and a list of subdirectories.  `os.walk` with the default
`onerror=None` silently skips a directory whose listing fails, together
with its whole subtree. -/
inductive FSTree where
  | mk (dname : String) (files : List String) (readable : Bool) (subdirs : List FSTree)

/-- A discovered file: `os.path.join(root, file)` is kept in structured
form as the component list of the directory followed by the file name. -/
structure FoundFile where
  dir : List String
  fname : String
deriving DecidableEq

/-- Top-down `os.walk` over a list of sibling directories, collecting the
eligible files of lines 32-37 of file_utils.py: for each readable
directory, its own matching files in listing order, then its subtrees
depth-first, then its later siblings.  An unreadable directory
contributes nothing (its error is swallowed by `os.walk`). -/
def walkList (cur : List String) : List FSTree → List FoundFile
  | [] => []
  | FSTree.mk n files r subs :: rest =>
      (if r then
        ((files.filter hasCodeExt).map fun f => FoundFile.mk (cur ++ [n]) f)
          ++ walkList (cur ++ [n]) subs
      else [])
        ++ walkList cur rest

/-- Error type named by the specification for a failed discovery.  The
Python code has no such exception: `find_code_files` wraps the walk in a
broad try/except and the `return found_files` sits outside the try, so
every call returns normally. -/
inductive DiscoveryError where
  | rootInvalid
deriving DecidableEq

/-- `FileManager.find_code_files` (file_utils.py lines 24-55).  The root
argument is `none` when the root path does not exist or is not a
directory, in which case `os.walk` yields nothing at all.  The `Except`
result type records the exception behaviour of the Python function: no
execution path raises, so the result is always `Except.ok`. -/
def find_code_files (root : Option FSTree) : Except DiscoveryError (List FoundFile) :=
  Except.ok (match root with
    | none => []
    | some t => walkList [] [t])

/-- Number of allow-listed files in an entire forest, readable or not. -/
def countEligible : List FSTree → Nat
  | [] => 0
  | FSTree.mk _ files _ subs :: rest =>
      (files.filter hasCodeExt).length + countEligible subs + countEligible rest

/-- Every directory of the forest can be listed. -/
def allReadable : List FSTree → Bool
  | [] => true
  | FSTree.mk _ _ r subs :: rest => r && allReadable subs && allReadable rest

theorem walkList_nil (cur : List String) : walkList cur [] = [] := by
  simp [walkList]

theorem walkList_cons_readable (cur : List String) (n : String) (files : List String)
    (subs rest : List FSTree) :
    walkList cur (FSTree.mk n files true subs :: rest) =
      ((files.filter hasCodeExt).map fun f => FoundFile.mk (cur ++ [n]) f)
        ++ (walkList (cur ++ [n]) subs ++ walkList cur rest) := by
  simp [walkList]

theorem walkList_cons_unreadable (cur : List String) (n : String) (files : List String)
    (subs rest : List FSTree) :
    walkList cur (FSTree.mk n files false subs :: rest) = walkList cur rest := by
  simp [walkList]

theorem walkList_all_code (cur : List String) (ts : List FSTree) :
    ((walkList cur ts).all fun ff => hasCodeExt ff.fname) = true := by
  induction cur, ts using walkList.induct with
  | case1 cur => simp [walkList]
  | case2 cur n files r subs rest ih1 ih2 =>
      simp only [walkList, List.all_append, Bool.and_eq_true]
      refine ⟨?_, ih2⟩
      split
      · simp only [List.all_append, Bool.and_eq_true]
        refine ⟨?_, ih1⟩
        simp only [List.all_eq_true]
        intro ff hff
        obtain ⟨f, hf, rfl⟩ := List.mem_map.mp hff
        exact List.of_mem_filter hf
      · simp

theorem walkList_length_eq (cur : List String) (ts : List FSTree)
    (h : allReadable ts = true) :
    (walkList cur ts).length = countEligible ts := by
  induction cur, ts using walkList.induct with
  | case1 cur => simp [walkList, countEligible]
  | case2 cur n files r subs rest ih1 ih2 =>
      simp only [allReadable, Bool.and_eq_true] at h
      obtain ⟨⟨hr, hsubs⟩, hrest⟩ := h
      subst hr
      simp [walkList, countEligible, ih1 hsubs, ih2 hrest]
      omega

/-! ## Safe file reading (file_utils.py `FileManager.read_file`,
document_generator.py `DocumentGenerator._read_code_file`) -/

/-- Outcome of `open(path).read()` on a single file: either the decoded
content (decode errors cannot raise, since both readers open with
`errors="ignore"`), or the message of the OS error that was raised
(missing file, permission denied, ...). -/
inductive ReadResult where
  | ok (content : String)
  | err (reason : String)
deriving DecidableEq

/-- An abstract filesystem read oracle: what reading each path yields. -/
def ReadFS : Type := String → ReadResult

/-- `os.path.basename`: the part of the path after the last slash
(empty when the path ends in a slash). -/
def basename (p : String) : String :=
  String.mk (p.data.foldl (fun acc c => if c = '/' then [] else acc ++ [c]) [])

/-- The bracketed diagnostic placeholder built by both readers on
failure (file_utils.py lines 66-69, document_generator.py lines
143-146). -/
def read_error_msg (file_path reason : String) : String :=
  "[Ошибка чтения файла: " ++ basename file_path ++ "\nПричина: " ++ reason ++ "]"

/-- `FileManager.read_file` (file_utils.py lines 57-71): returns the
content on success and the placeholder on any exception; the broad
except clause means no exception reaches the caller, which the total
Lean function reflects.  The `encoding` parameter defaults to utf-8 in
the source and does not change the control flow. -/
def read_file (fs : ReadFS) (file_path : String) (_encoding : String) : String :=
  match fs file_path with
  | ReadResult.ok content => content
  | ReadResult.err e => read_error_msg file_path e

/-- `DocumentGenerator._read_code_file` (document_generator.py lines
136-148): same behaviour as `read_file`, fixed utf-8 encoding. -/
def read_code_file (fs : ReadFS) (file_path : String) : String :=
  match fs file_path with
  | ReadResult.ok content => content
  | ReadResult.err e => read_error_msg file_path e

/-! ## Date formatting (src/utils/date_utils.py) and the render context
(document_generator.py lines 59-65) -/

/-- A Python `datetime` restricted to the fields the program reads.  The
`datetime` type itself guarantees `1 <= month <= 12`; the embedding
carries the month as a plain `Nat` so the dictionary lookup below is
honestly modelled as a lookup that can miss. -/
structure PyDateTime where
  day : Nat
  month : Nat
  year : Nat

/-- The `months` dictionary of date_utils.py lines 12-25; `none` models
a `KeyError` on lookup. -/
def month_names : Nat → Option String
  | 1 => some "января"
  | 2 => some "февраля"
  | 3 => some "марта"
  | 4 => some "апреля"
  | 5 => some "мая"
  | 6 => some "июня"
  | 7 => some "июля"
  | 8 => some "августа"
  | 9 => some "сентября"
  | 10 => some "октября"
  | 11 => some "ноября"
  | 12 => some "декабря"
  | _ => none

/-- `format_date_russian` (date_utils.py lines 8-26):
the f-string `«{date.day}» {months[date.month]} {date.year}`. -/
def format_date_russian (date : PyDateTime) : Option String :=
  (month_names date.month).map fun m =>
    "«" ++ toString date.day ++ "» " ++ m ++ " " ++ toString date.year

/-- The substitution context built by `DocumentGenerator.generate`
(document_generator.py lines 59-65): exactly the five keys, with the
date value pre-formatted by `format_date_russian`. -/
def render_context (group student_name teacher_name work_number : String)
    (date : PyDateTime) : Option (List (String × String)) :=
  (format_date_russian date).map fun ds =>
    [("group", group), ("student_name", student_name),
     ("teacher_name", teacher_name), ("work_number", work_number),
     ("date", ds)]

/-! ## Document assembly (document_generator.py lines 81-100, 123-134,
150-162) -/

/-- Paragraph alignment values used by the generator
(`WD_ALIGN_PARAGRAPH.JUSTIFY` and `WD_ALIGN_PARAGRAPH.LEFT`). -/
inductive Align where
  | left
  | justify
deriving DecidableEq

/-- Paragraph format fields the generator sets; `none` means the field
is left unset (inherited from the docx style).  Lengths are in
hundredths of a centimeter, spacing before/after in points, line
spacing in hundredths. -/
structure ParaFmt where
  alignment : Align
  firstLineIndentCm100 : Option Nat
  leftIndentCm100 : Option Nat
  spaceBeforePt : Option Nat
  spaceAfterPt : Option Nat
  lineSpacing100 : Option Nat
deriving DecidableEq

/-- Run (text span) format fields the generator sets. -/
structure RunFmt where
  fontName : String
  fontSizePt : Nat
  bold : Option Bool
deriving DecidableEq

/-- One block-level item appended to the docx body. -/
inductive DocItem where
  | pageBreak
  | para (fmt : ParaFmt) (runFmt : RunFmt) (text : String)
deriving DecidableEq

/-- The heading paragraph appended by `_add_task_heading`
(document_generator.py lines 123-134). -/
def heading_item (task_number : Nat) : DocItem :=
  DocItem.para
    { alignment := Align.justify, firstLineIndentCm100 := some 125,
      leftIndentCm100 := none, spaceBeforePt := some 0,
      spaceAfterPt := some 6, lineSpacing100 := none }
    { fontName := "Times New Roman", fontSizePt := 12, bold := some true }
    ("Задание № " ++ toString task_number ++ ":")

/-- `DocumentGenerator._add_task_heading`: appends the heading paragraph
to the document body. -/
def add_task_heading (doc : List DocItem) (task_number : Nat) : List DocItem :=
  doc ++ [heading_item task_number]

/-- The code paragraph appended by `_add_code_content`
(document_generator.py lines 150-162). -/
def code_item (code_content : String) : DocItem :=
  DocItem.para
    { alignment := Align.left, firstLineIndentCm100 := some 0,
      leftIndentCm100 := some 125, spaceBeforePt := some 0,
      spaceAfterPt := some 0, lineSpacing100 := some 100 }
    { fontName := "Courier New", fontSizePt := 9, bold := none }
    code_content

/-- `DocumentGenerator._add_code_content`: appends the code paragraph to
the document body. -/
def add_code_content (doc : List DocItem) (code_content : String) : List DocItem :=
  doc ++ [code_item code_content]

/-- The assembly loop of `DocumentGenerator.generate`
(document_generator.py lines 81-100): `for idx, file_path in
enumerate(code_files, 1)` — a page break when `idx > 1`, then the task
heading, then the content read by `_read_code_file`. -/
def assemble_sections (fs : ReadFS) (doc : List DocItem) (idx : Nat) :
    List String → List DocItem
  | [] => doc
  | file_path :: rest =>
      let doc1 := if idx > 1 then doc ++ [DocItem.pageBreak] else doc
      let doc2 := add_task_heading doc1 idx
      let doc3 := add_code_content doc2 (read_code_file fs file_path)
      assemble_sections fs doc3 (idx + 1) rest

/-- The items one section contributes: a page break exactly when the
1-based ordinal exceeds 1, the heading, the body paragraph. -/
def section_items (fs : ReadFS) (idx : Nat) (file_path : String) : List DocItem :=
  (if idx > 1 then [DocItem.pageBreak] else [])
    ++ [heading_item idx, code_item (read_code_file fs file_path)]

/-- The flattened sections of a file list, numbering from `idx`. -/
def expected_sections (fs : ReadFS) (idx : Nat) : List String → List DocItem
  | [] => []
  | f :: rest => section_items fs idx f ++ expected_sections fs (idx + 1) rest

/-- Is a document item a paragraph (rather than a page break)? -/
def is_para : DocItem → Bool
  | DocItem.para _ _ _ => true
  | DocItem.pageBreak => false

/-- The text of a paragraph item. -/
def para_text : DocItem → Option String
  | DocItem.para _ _ t => some t
  | DocItem.pageBreak => none

theorem assemble_sections_eq (fs : ReadFS) (files : List String) :
    ∀ doc idx, assemble_sections fs doc idx files = doc ++ expected_sections fs idx files := by
  induction files with
  | nil => intro doc idx; simp [assemble_sections, expected_sections]
  | cons f rest ih =>
      intro doc idx
      simp only [assemble_sections, expected_sections, ih, section_items,
        add_task_heading, add_code_content]
      split <;> simp

theorem expected_sections_break_count (fs : ReadFS) (files : List String) :
    ∀ idx, 2 ≤ idx →
      (expected_sections fs idx files).count DocItem.pageBreak = files.length := by
  induction files with
  | nil => intro idx _; simp [expected_sections]
  | cons f rest ih =>
      intro idx hidx
      have h1 : idx > 1 := hidx
      simp only [expected_sections, section_items, List.count_append, if_pos h1]
      rw [ih (idx + 1) (by omega)]
      simp [List.count_cons, heading_item, code_item, List.count_singleton]
      omega

theorem expected_sections_break_count_one (fs : ReadFS) (files : List String) :
    (expected_sections fs 1 files).count DocItem.pageBreak = files.length - 1 := by
  cases files with
  | nil => simp [expected_sections]
  | cons f rest =>
      simp only [expected_sections, section_items, List.count_append]
      rw [expected_sections_break_count fs rest 2 (by omega)]
      simp [heading_item, code_item, List.count_cons]

theorem expected_sections_para_count (fs : ReadFS) (files : List String) :
    ∀ idx, (expected_sections fs idx files).countP is_para = 2 * files.length := by
  induction files with
  | nil => intro idx; simp [expected_sections]
  | cons f rest ih =>
      intro idx
      simp only [expected_sections, section_items, List.countP_append]
      rw [ih (idx + 1)]
      split <;> simp [is_para, heading_item, code_item, List.countP_cons] <;> omega

theorem expected_sections_para_texts (fs : ReadFS) (files : List String) :
    ∀ idx, (expected_sections fs idx files).filterMap para_text =
      (List.range files.length).flatMap fun i =>
        ["Задание № " ++ toString (idx + i) ++ ":", read_code_file fs (files.get! i)] := by
  induction files with
  | nil => intro idx; simp [expected_sections]
  | cons f rest ih =>
      intro idx
      simp only [expected_sections, section_items, List.filterMap_append]
      rw [ih (idx + 1)]
      simp only [List.length_cons, List.range_succ_eq_map, List.flatMap_cons,
        List.flatMap_map]
      split <;>
        simp [para_text, heading_item, code_item, List.get!, Nat.add_assoc,
          Nat.add_comm 1]

/-! ## The generation pipeline and its temp-file lifecycle
(document_generator.py `DocumentGenerator.generate`, lines 34-121)

The docx-library calls are effectful and can raise; each is modelled by
a Boolean success flag in `GenEnv`.  `GenState` tracks the files the
run touches: whether the temporary file currently exists, whether it
was ever created, and whether the output file exists.  The body of
`generate` is one big try/except returning False on any exception, so
the embedding returns `(Bool, GenState)`. -/

structure GenEnv where
  /-- `DocxTemplate(self.template_path)` succeeds (template exists and loads). -/
  templateLoadOk : Bool
  /-- `doc.render(context)` succeeds. -/
  renderOk : Bool
  /-- `doc.save(temp_file)` succeeds. -/
  tempSaveOk : Bool
  /-- `Document(temp_file)` succeeds. -/
  openOk : Bool
  /-- the section-assembly loop raises no docx exception. -/
  assembleOk : Bool
  /-- `final_doc.save(output_path)` succeeds; false when the parent
  directory of the output path does not exist or is not writable, in
  which case `save` raises before creating any file there. -/
  finalSaveOk : Bool

structure GenState where
  tempExists : Bool
  tempEverCreated : Bool
  outputExists : Bool
deriving DecidableEq

/-- State before the run: no temporary file, no output file. -/
def initGenState : GenState := GenState.mk false false false

/-- `DocumentGenerator.generate` (document_generator.py lines 34-121),
step by step: load template, render the context, create the named
temporary file (`delete=False`) and save the rendered document into it,
reopen it, run the assembly loop, save the final document to the output
path, and only then — still inside the try block, after the successful
save — remove the temporary file (lines 106-109).  Every exception is
caught by the except clause at line 116, which returns False without
touching the temporary file. -/
def generate (env : GenEnv) : Bool × GenState :=
  if !env.templateLoadOk then (false, initGenState)
  else if !env.renderOk then (false, initGenState)
  else
    let st := GenState.mk true true false
    if !env.tempSaveOk then (false, st)
    else if !env.openOk then (false, st)
    else if !env.assembleOk then (false, st)
    else if !env.finalSaveOk then (false, st)
    else (true, GenState.mk false true true)

/-- `DocumentGenerator.validate_template` (lines 26-32):
`os.path.exists(self.template_path)`. -/
def validate_template (templateExists : Bool) : Bool := templateExists

/-! ## The UI pipeline entry (src/ui/app.py
`MireaReportGenerator.generate_document`, lines 1030-1099) -/

inductive UIOutcome where
  | invalidInput
  | templateMissingAlert
  | outputPathCanceled
  | successMessage
  | failureAlert
deriving DecidableEq

structure UIEnv where
  /-- `_validate_generation_inputs()` passes. -/
  inputsValid : Bool
  /-- `os.path.exists(template_path)` (app.py line 1048). -/
  templateExists : Bool
  /-- `_determine_output_path` yields a path. -/
  outputPathChosen : Bool
  genEnv : GenEnv

/-- `MireaReportGenerator.generate_document`: validates inputs, then
checks the template path exists (before any DocumentGenerator work) and
alerts and returns if not, then determines the output path, then calls
`DocumentGenerator.generate` and reports success or failure. -/
def generate_document (env : UIEnv) : UIOutcome × GenState :=
  if !env.inputsValid then (UIOutcome.invalidInput, initGenState)
  else if !env.templateExists then (UIOutcome.templateMissingAlert, initGenState)
  else if !env.outputPathChosen then (UIOutcome.outputPathCanceled, initGenState)
  else
    let r := generate env.genEnv
    (if r.1 then UIOutcome.successMessage else UIOutcome.failureAlert, r.2)

/-! ## Logging (src/utils/logger.py, AppLogger) -/

inductive Level where
  | debug
  | info
  | warning
  | error
  | critical
deriving DecidableEq

structure LogRecord where
  level : Level
  message : String
deriving DecidableEq

/-- The mutable singleton state of `AppLogger`: the `_enabled` flag, the
`_log_path` string and the `_initialized` flag (named `inited` here). -/
structure LoggerState where
  enabled : Bool
  logPath : String
  inited : Bool
deriving DecidableEq

structure LogEnv where
  /-- `os.makedirs(self._log_path, exist_ok=True)` succeeds. -/
  mkdirOk : Bool
  /-- handler construction (RotatingFileHandler etc.) succeeds. -/
  handlerOk : Bool

/-- `AppLogger._setup_logger` (logger.py lines 60-110): if already set
up, return; if the log directory cannot be created, print a console
warning, set `_enabled = False` and return — no exception escapes; the
same for a failure while attaching handlers. -/
def setup_logger (env : LogEnv) (st : LoggerState) : LoggerState :=
  if st.inited then st
  else if !env.mkdirOk then { st with enabled := false }
  else if !env.handlerOk then { st with enabled := false }
  else { st with inited := true }

/-- `AppLogger.configure` (logger.py lines 42-58): store the flag and
path, clear any existing handlers, then set up again when enabled. -/
def logger_configure (env : LogEnv) (enabled : Bool) (log_path : String) : LoggerState :=
  let st1 : LoggerState := { enabled := enabled, logPath := log_path, inited := false }
  if enabled then setup_logger env st1 else st1

/-- `AppLogger._log` (logger.py lines 112-121): emits one record when
`_enabled and _initialized`, otherwise does nothing.  The returned list
is what reaches the sink; the function is total — no method of the
logger raises. -/
def log_call (st : LoggerState) (level : Level) (message : String) : List LogRecord :=
  if st.enabled && st.inited then [LogRecord.mk level message] else []

def logger_debug (st : LoggerState) (m : String) : List LogRecord := log_call st Level.debug m

def logger_info (st : LoggerState) (m : String) : List LogRecord := log_call st Level.info m

def logger_warning (st : LoggerState) (m : String) : List LogRecord := log_call st Level.warning m

def logger_error (st : LoggerState) (m : String) : List LogRecord := log_call st Level.error m

def logger_critical (st : LoggerState) (m : String) : List LogRecord := log_call st Level.critical m

/-- `AppLogger.log_operation` (logger.py lines 143-154). -/
def log_operation (st : LoggerState) (op details : String) : List LogRecord :=
  if details ≠ "" then logger_info st ("[ОПЕРАЦИЯ] " ++ op ++ ": " ++ details)
  else logger_info st ("[ОПЕРАЦИЯ] " ++ op)

/-- `AppLogger.log_exception` (logger.py lines 156-164). -/
def log_exception (st : LoggerState) (op exc_type exc_msg : String) : List LogRecord :=
  logger_error st ("[ИСКЛЮЧЕНИЕ] " ++ op ++ ": " ++ exc_type ++ ": " ++ exc_msg)

/-- `AppLogger.log_file_operation` (logger.py lines 166-176): an info
record and a debug record. -/
def log_file_operation (st : LoggerState) (op filepath status : String) : List LogRecord :=
  logger_info st ("[ФАЙЛ] " ++ op ++ " | " ++ basename filepath ++ " | " ++ status)
    ++ logger_debug st ("  └─ Полный путь: " ++ filepath)

/-! ## Config store (src/core/config.py, ConfigManager) -/

/-- A JSON-ish config value (the program stores strings and booleans). -/
inductive ConfigVal where
  | s (v : String)
  | b (v : Bool)
deriving DecidableEq

/-- The config mapping; `none` models an absent key. -/
def Config : Type := String → Option ConfigVal

/-- Python dict assignment `cfg[key] = v`. -/
def config_insert (cfg : Config) (key : String) (v : ConfigVal) : Config :=
  fun k => if k = key then some v else cfg k

/-- `ConfigManager._get_default_config` (config.py lines 32-45). -/
def default_config : Config := fun k =>
  if k = "group" then some (ConfigVal.s "")
  else if k = "student_name" then some (ConfigVal.s "")
  else if k = "teacher_name" then some (ConfigVal.s "")
  else if k = "work_number" then some (ConfigVal.s "")
  else if k = "last_directory" then some (ConfigVal.s "")
  else if k = "template_path" then some (ConfigVal.s "template.docx")
  else if k = "save_directory" then some (ConfigVal.s "")
  else if k = "save_nearby" then some (ConfigVal.b true)
  else if k = "logging_enabled" then some (ConfigVal.b true)
  else if k = "log_directory" then some (ConfigVal.s "logs")
  else none

/-- `ConfigManager.load` (config.py lines 18-30): parsed file data gets
the two logging keys patched in when absent; a missing or unparsable
file yields the defaults. -/
def config_load (file_data : Option Config) : Config :=
  match file_data with
  | some data =>
      let c1 := if (data "logging_enabled").isSome then data
        else config_insert data "logging_enabled" (ConfigVal.b true)
      if (c1 "log_directory").isSome then c1
      else config_insert c1 "log_directory" (ConfigVal.s "logs")
  | none => default_config

/-- The in-memory effect of `ConfigManager.save` (config.py lines
47-61) on the dict it receives: the two logging keys are filled in from
`self.config` when absent.  In the `update` path below, `config_data`
is the same object as `self.config`, so the mutation lands in the
manager state whether or not the file write succeeds. -/
def config_save_patch (self_config config_data : Config) : Config :=
  let c1 := if (config_data "logging_enabled").isSome then config_data
    else config_insert config_data "logging_enabled"
      ((self_config "logging_enabled").getD (ConfigVal.b true))
  if (c1 "log_directory").isSome then c1
  else config_insert c1 "log_directory"
    ((self_config "log_directory").getD (ConfigVal.s "logs"))

/-- `ConfigManager.get` (config.py lines 63-64) with the default
argument left at `None`. -/
def config_get (cfg : Config) (key : String) : Option ConfigVal := cfg key

/-- `ConfigManager.update` (config.py lines 66-68): set the key, then
`self.save(self.config)` on the very same dict. -/
def config_update (cfg : Config) (key : String) (value : ConfigVal) : Config :=
  let c1 := config_insert cfg key value
  config_save_patch c1 c1

/-! ## Claims -/

/-- An environment in which every step succeeds except the final save of
the output document (missing or unwritable output directory). -/
def envPublishFail : GenEnv := GenEnv.mk true true true true true false

/-- C1, counterexample: a run whose final save fails has created the
temporary file, returns False, and leaves the temporary file on disk —
`generate` removes the temp file only on its success path (lines
106-109 are inside the try block after the final save), so a failure
after temp creation never cleans it up. -/
theorem temp_file_left_on_failed_publish :
    (generate envPublishFail).1 = false ∧
    (generate envPublishFail).2.tempEverCreated = true ∧
    (generate envPublishFail).2.tempExists = true :=
  ⟨rfl, rfl, rfl⟩

/-- C1, amended: after `DocumentGenerator.generate` returns, the
temporary file remains on disk exactly when it was created and the run
failed: a successful run always removes it, and a run that fails after
creating it always leaves it behind. -/
theorem temp_cleanup_on_success_only (env : GenEnv) :
    (generate env).2.tempExists
      = ((generate env).2.tempEverCreated && !(generate env).1) := by
  obtain ⟨a, b, c, d, e, f⟩ := env
  cases a <;> cases b <;> cases c <;> cases d <;> cases e <;> cases f <;> rfl

/-- C2, counterexample: on a root that does not exist (or is not a
directory), `FileManager.find_code_files` does not fail: `os.walk`
yields nothing, no exception is raised (and no `DiscoveryError` type
exists anywhere in the program), and the function returns the empty
list as a normal result. -/
theorem discovery_missing_root_returns_ok :
    find_code_files none = Except.ok ([] : List FoundFile) ∧
    ¬ ∃ e, find_code_files none = Except.error e := by
  refine ⟨rfl, ?_⟩
  rintro ⟨e, he⟩
  simp [find_code_files] at he

/-- C2, amended: `find_code_files` never fails — on a nonexistent or
non-directory root it returns the empty list normally (the broad
try/except plus the `return found_files` outside the try make every
call return a list); an error on an individual subdirectory
(unreadable) causes exactly that subtree to be skipped while the walk
continues with the remaining siblings. -/
theorem discovery_total_and_skips_bad_subtrees :
    (∀ root, ∃ l, find_code_files root = Except.ok l) ∧
    find_code_files none = Except.ok ([] : List FoundFile) ∧
    (∀ cur n files subs rest,
      walkList cur (FSTree.mk n files false subs :: rest) = walkList cur rest) ∧
    (∀ cur n files subs rest,
      walkList cur (FSTree.mk n files true subs :: rest) =
        ((files.filter hasCodeExt).map fun f => FoundFile.mk (cur ++ [n]) f)
          ++ (walkList (cur ++ [n]) subs ++ walkList cur rest)) :=
  ⟨fun _ => ⟨_, rfl⟩, rfl, walkList_cons_unreadable, walkList_cons_readable⟩

/-- C3: for every file whose read succeeds, both safe readers return
exactly its (utf-8, errors-ignored) content; for every file whose read
raises, both return — without raising, being total functions — the
deterministic bracketed placeholder built from the base name of the
file and the failure reason. -/
theorem safe_read_content_or_placeholder (fs : ReadFS) (file_path enc : String) :
    (∀ c, fs file_path = ReadResult.ok c →
      read_file fs file_path enc = c ∧ read_code_file fs file_path = c) ∧
    (∀ r, fs file_path = ReadResult.err r →
      read_file fs file_path enc = read_error_msg file_path r ∧
      read_code_file fs file_path = read_error_msg file_path r) ∧
    (∀ r, read_error_msg file_path r =
      "[Ошибка чтения файла: " ++ basename file_path ++ "\nПричина: " ++ r ++ "]") := by
  refine ⟨fun c hc => ?_, fun r hr => ?_, fun r => rfl⟩
  · constructor <;> simp [read_file, read_code_file, hc]
  · constructor <;> simp [read_file, read_code_file, hr]

/-- Read oracle for the C3 witness: one readable file, everything else
missing. -/
def fsW : ReadFS := fun p =>
  if p = "dir/ok.py" then ReadResult.ok "print(1)"
  else ReadResult.err "No such file or directory"

theorem safe_read_content_or_placeholder_witness :
    fsW "dir/ok.py" = ReadResult.ok "print(1)" ∧
    read_file fsW "dir/ok.py" "utf-8" = "print(1)" ∧
    fsW "dir/missing.py" = ReadResult.err "No such file or directory" ∧
    read_code_file fsW "dir/missing.py" =
      "[Ошибка чтения файла: missing.py\nПричина: No such file or directory]" := by
  refine ⟨rfl,
    ((safe_read_content_or_placeholder fsW "dir/ok.py" "utf-8").1 "print(1)" rfl).1,
    rfl, ?_⟩
  rw [((safe_read_content_or_placeholder fsW "dir/missing.py" "utf-8").2.1
    "No such file or directory" rfl).2]
  rfl

/-- Read oracle for the C4 counterexample: every file reads as a fixed
one-line program. -/
def fs0 : ReadFS := fun _ => ReadResult.ok "print(1)"

/-- C4, counterexample: assembling one source file yields a heading
paragraph whose text is the Russian label `Задание № 1:`, not the
claimed literal `Task № 1:`. -/
theorem task_heading_label_is_russian :
    (assemble_sections fs0 [] 1 ["a.py"]).filterMap para_text
      = ["Задание № 1:", "print(1)"] ∧
    ("Задание № 1:" : String) ≠ "Task № 1:" := by
  exact ⟨rfl, by decide⟩

/-- C4, amended: for every ordered list of N source files, assembly
appends exactly N sections in the given 1-based order — a page break
before every section with ordinal greater than 1 and before no other, a
bold justified heading labeled `Задание № {ordinal}:` (the Russian
equivalent of the claimed `Task № {ordinal}:`), and the body as a
left-aligned Courier-New block with a fixed 1.25 cm left indent and
single line spacing — with no re-sorting, deduplication, or filtering:
each position i contributes exactly its heading text and exactly the
content read from the i-th input file, so the page-break count is
N - 1 and the paragraph count is 2N. -/
theorem assemble_exact_sections (fs : ReadFS) (doc : List DocItem) (files : List String) :
    assemble_sections fs doc 1 files = doc ++ expected_sections fs 1 files ∧
    (expected_sections fs 1 files).count DocItem.pageBreak = files.length - 1 ∧
    (expected_sections fs 1 files).countP is_para = 2 * files.length ∧
    (expected_sections fs 1 files).filterMap para_text =
      (List.range files.length).flatMap fun i =>
        ["Задание № " ++ toString (1 + i) ++ ":", read_code_file fs (files.get! i)] :=
  ⟨assemble_sections_eq fs files doc 1,
   expected_sections_break_count_one fs files,
   expected_sections_para_count fs files 1,
   expected_sections_para_texts fs files 1⟩

/-- C5: discovery returns only files whose name has a suffix in the
fixed case-sensitive allow-list; on a fully readable tree the number of
returned files equals the number of allow-listed files in the subtree;
and the result order is visitation order — for each directory, its own
matching files in listing order, then its subdirectories depth-first,
then its later siblings. -/
theorem discovery_filter_count_order :
    (∀ cur ts, ((walkList cur ts).all fun ff => hasCodeExt ff.fname) = true) ∧
    (∀ cur ts, allReadable ts = true → (walkList cur ts).length = countEligible ts) ∧
    (∀ root, find_code_files (some root) = Except.ok (walkList [] [root])) ∧
    (∀ cur n files subs rest,
      walkList cur (FSTree.mk n files true subs :: rest) =
        ((files.filter hasCodeExt).map fun f => FoundFile.mk (cur ++ [n]) f)
          ++ (walkList (cur ++ [n]) subs ++ walkList cur rest)) :=
  ⟨walkList_all_code, walkList_length_eq, fun _ => rfl, walkList_cons_readable⟩

/-- Sample tree for the C5 witness: a readable root with three files
(two eligible) and a readable subdirectory with one eligible file. -/
def t5 : FSTree :=
  FSTree.mk "root" ["a.py", "b.cpp", "notes.txt"] true [FSTree.mk "sub" ["c.rs"] true []]

theorem discovery_filter_count_order_witness :
    allReadable [t5] = true ∧
    (walkList [] [t5]).length = countEligible [t5] := by
  refine ⟨?_, discovery_filter_count_order.2.1 [] [t5] ?_⟩ <;>
    simp [allReadable, t5]

/-- C6: when the template path does not exist, a run with valid inputs
stops at the existence check performed by `generate_document` before
any `DocumentGenerator` work, surfaces the template-missing alert, and
ends with no temporary file ever created and no output artifact;
likewise, inside `DocumentGenerator.generate` itself a template that
fails to load aborts the run before the temporary file is created. -/
theorem template_missing_fails_before_temp (env : UIEnv)
    (h1 : env.inputsValid = true) (h2 : env.templateExists = false) :
    generate_document env = (UIOutcome.templateMissingAlert, initGenState) ∧
    (generate_document env).2.tempEverCreated = false ∧
    (generate_document env).2.outputExists = false ∧
    (∀ genv : GenEnv, genv.templateLoadOk = false →
      generate genv = (false, initGenState)) := by
  refine ⟨?_, ?_, ?_, fun genv hg => ?_⟩
  · simp [generate_document, h1, h2]
  · simp [generate_document, h1, h2, initGenState]
  · simp [generate_document, h1, h2, initGenState]
  · simp [generate, hg]

/-- UI environment for the C6 witness: valid inputs, missing template,
everything downstream would succeed. -/
def uiEnvNoTemplate : UIEnv :=
  UIEnv.mk true false true (GenEnv.mk true true true true true true)

theorem template_missing_fails_before_temp_witness :
    uiEnvNoTemplate.inputsValid = true ∧
    uiEnvNoTemplate.templateExists = false ∧
    generate_document uiEnvNoTemplate = (UIOutcome.templateMissingAlert, initGenState) :=
  ⟨rfl, rfl, (template_missing_fails_before_temp uiEnvNoTemplate rfl rfl).1⟩

/-- C7: whenever the final save to the output path fails (parent
directory missing or unwritable), the run reports failure —
`generate` returns False — and no file exists at the output path. -/
theorem publish_failure_reports_false_no_output (env : GenEnv)
    (h : env.finalSaveOk = false) :
    (generate env).1 = false ∧ (generate env).2.outputExists = false := by
  obtain ⟨a, b, c, d, e, f⟩ := env
  revert h
  cases a <;> cases b <;> cases c <;> cases d <;> cases e <;> cases f <;>
    intro h <;> simp_all [generate, initGenState]

/-- Environment for the C7 witness: every step succeeds except the
final save. -/
def envOutputDirMissing : GenEnv := GenEnv.mk true true true true true false

theorem publish_failure_reports_false_no_output_witness :
    envOutputDirMissing.finalSaveOk = false ∧
    (generate envOutputDirMissing).1 = false ∧
    (generate envOutputDirMissing).2.outputExists = false :=
  ⟨rfl, (publish_failure_reports_false_no_output envOutputDirMissing rfl).1,
    (publish_failure_reports_false_no_output envOutputDirMissing rfl).2⟩

/-- C8: the substitution context holds exactly the five named keys
group, student_name, teacher_name, work_number, date — in that order —
and the date value is pre-formatted by `format_date_russian` into
`«{day}» {Russian month name} {year}`; the formatter succeeds for
every datetime whose month lies in 1..12. -/
theorem render_context_five_fields (g s t w : String) (d : PyDateTime)
    (h1 : 1 ≤ d.month) (h2 : d.month ≤ 12) :
    ∃ m, month_names d.month = some m ∧
      format_date_russian d =
        some ("«" ++ toString d.day ++ "» " ++ m ++ " " ++ toString d.year) ∧
      render_context g s t w d =
        some [("group", g), ("student_name", s), ("teacher_name", t),
          ("work_number", w),
          ("date", "«" ++ toString d.day ++ "» " ++ m ++ " " ++ toString d.year)] := by
  obtain ⟨day, month, year⟩ := d
  have h1m : 1 ≤ month := h1
  have h2m : month ≤ 12 := h2
  interval_cases month <;> exact ⟨_, rfl, rfl, rfl⟩

/-- Date for the C8 witness. -/
def date0 : PyDateTime := PyDateTime.mk 12 10 2026

theorem render_context_five_fields_witness :
    1 ≤ date0.month ∧ date0.month ≤ 12 ∧
    ∃ m, month_names date0.month = some m ∧
      format_date_russian date0 =
        some ("«" ++ toString date0.day ++ "» " ++ m ++ " " ++ toString date0.year) ∧
      render_context "ИКБО-01-23" "Иванов И.И." "Петров П.П." "5" date0 =
        some [("group", "ИКБО-01-23"), ("student_name", "Иванов И.И."),
          ("teacher_name", "Петров П.П."), ("work_number", "5"),
          ("date", "«" ++ toString date0.day ++ "» " ++ m ++ " " ++ toString date0.year)] :=
  ⟨by decide, by decide,
    render_context_five_fields "ИКБО-01-23" "Иванов И.И." "Петров П.П." "5" date0
      (by decide) (by decide)⟩

/-- C9: if creating the log directory fails during setup, `configure`
leaves the logger disabled and uninitialized — the failure is absorbed
(the embedding is a total function; the Python code prints a console
warning and returns) — and afterwards every logging call, the five
level methods and the three convenience wrappers alike, emits nothing
and returns normally: logging can never fail the pipeline. -/
theorem logger_mkdir_failure_silent_noop (handlerOk : Bool) (log_path : String) :
    (logger_configure (LogEnv.mk false handlerOk) true log_path).enabled = false ∧
    (logger_configure (LogEnv.mk false handlerOk) true log_path).inited = false ∧
    (∀ l m, log_call (logger_configure (LogEnv.mk false handlerOk) true log_path) l m = []) ∧
    (∀ m, logger_debug (logger_configure (LogEnv.mk false handlerOk) true log_path) m = [] ∧
      logger_info (logger_configure (LogEnv.mk false handlerOk) true log_path) m = [] ∧
      logger_warning (logger_configure (LogEnv.mk false handlerOk) true log_path) m = [] ∧
      logger_error (logger_configure (LogEnv.mk false handlerOk) true log_path) m = [] ∧
      logger_critical (logger_configure (LogEnv.mk false handlerOk) true log_path) m = []) ∧
    (∀ op details, log_operation (logger_configure (LogEnv.mk false handlerOk) true log_path) op details = []) ∧
    (∀ op t m, log_exception (logger_configure (LogEnv.mk false handlerOk) true log_path) op t m = []) ∧
    (∀ op f s, log_file_operation (logger_configure (LogEnv.mk false handlerOk) true log_path) op f s = []) := by
  have hst : logger_configure (LogEnv.mk false handlerOk) true log_path
      = LoggerState.mk false log_path false := by
    simp [logger_configure, setup_logger]
  rw [hst]
  refine ⟨rfl, rfl, fun l m => rfl, fun m => ⟨rfl, rfl, rfl, rfl, rfl⟩,
    fun op details => ?_, fun op t m => rfl, fun op f s => rfl⟩
  unfold log_operation
  split <;> rfl

/-- C10: updating one key changes only that key.  `update` first sets
the key in the in-memory dict and then runs `save` on the same dict;
because every dict a `ConfigManager` holds carries the two logging keys
(`load` patches them in on every branch, and `update` preserves them),
the key-completion step inside `save` is a no-op, so `get` afterwards
returns the new value at the updated key and the previous value at
every other key. -/
theorem config_update_frame (cfg : Config) (k : String) (v : ConfigVal)
    (h1 : (cfg "logging_enabled").isSome = true)
    (h2 : (cfg "log_directory").isSome = true) :
    config_get (config_update cfg k v) k = some v ∧
    (∀ k2, k2 ≠ k → config_get (config_update cfg k v) k2 = config_get cfg k2) ∧
    (∀ fd, (config_get (config_load fd) "logging_enabled").isSome = true ∧
      (config_get (config_load fd) "log_directory").isSome = true) ∧
    (config_get (config_update cfg k v) "logging_enabled").isSome = true ∧
    (config_get (config_update cfg k v) "log_directory").isSome = true := by
  have hle : ((config_insert cfg k v) "logging_enabled").isSome = true := by
    unfold config_insert
    split <;> simp [h1]
  have hld : ((config_insert cfg k v) "log_directory").isSome = true := by
    unfold config_insert
    split <;> simp [h2]
  have hupd : config_update cfg k v = config_insert cfg k v := by
    unfold config_update config_save_patch
    simp [hle, hld]
  refine ⟨?_, fun k2 hk2 => ?_, fun fd => ?_, ?_, ?_⟩
  · rw [hupd]; unfold config_get config_insert; simp
  · rw [hupd]; unfold config_get config_insert; simp [hk2]
  · cases fd with
    | none => exact ⟨rfl, rfl⟩
    | some data =>
        simp only [config_get, config_load]
        constructor <;>
          (by_cases ha : (data "logging_enabled").isSome = true <;>
            by_cases hb : (data "log_directory").isSome = true <;>
            simp [ha, hb, config_insert])
  · rw [hupd]; exact hle
  · rw [hupd]; exact hld

theorem config_update_frame_witness :
    (default_config "logging_enabled").isSome = true ∧
    (default_config "log_directory").isSome = true ∧
    config_get (config_update default_config "group" (ConfigVal.s "ИКБО-01-23")) "group"
      = some (ConfigVal.s "ИКБО-01-23") ∧
    config_get (config_update default_config "group" (ConfigVal.s "ИКБО-01-23")) "student_name"
      = config_get default_config "student_name" :=
  ⟨rfl, rfl,
    (config_update_frame default_config "group" (ConfigVal.s "ИКБО-01-23") rfl rfl).1,
    (config_update_frame default_config "group" (ConfigVal.s "ИКБО-01-23") rfl rfl).2.1
      "student_name" (by decide)⟩

end MireaReport
